import Mathlib

/-!
Verification development for the claude-skills-marketplace demonstration
repository.  The Python sources are shallowly embedded: every method that a
claim refers to is translated into a Lean definition that mirrors the source
body (string literals, dictionary lookups, branch-by-string-match mocks).
Stateful aspects (instance state, call counters for store queries and
transport calls) are made explicit by state passing.  Python string literals
are embedded verbatim, with newlines written as escape sequences.
-/

/- ===================== generic string helpers ===================== -/

/-- Boolean test: the first character list is a prefix of the second. -/
def listPrefixOf : List Char → List Char → Bool
  | [], _ => true
  | _ :: _, [] => false
  | p :: ps, t :: ts => p == t && listPrefixOf ps ts

/-- Boolean test: the first character list occurs contiguously inside the second. -/
def listInfixOf (p : List Char) : List Char → Bool
  | [] => listPrefixOf p []
  | t :: ts => listPrefixOf p (t :: ts) || listInfixOf p ts

/-- Boolean test: the string `pat` occurs as a contiguous substring of `s`. -/
def hasSubstr (s pat : String) : Bool := listInfixOf pat.data s.data

/- ===================== mcp_discovery_mechanism.py ===================== -/

/-- Embeds class `MCPFilesystemDiscovery`: its only instance state is the
`tools_dir` attribute set by `__init__`. -/
structure MCPFilesystemDiscovery where
  tools_dir : String

/-- Default value of the `tools_directory` argument of
`MCPFilesystemDiscovery.__init__` in the source. -/
def MCPFilesystemDiscovery.initDefaultDir : String := "/mcp_tools"

/-- Embeds `MCPFilesystemDiscovery.__init__(tools_directory)`: stores the
argument in `self.tools_dir`. -/
def MCPFilesystemDiscovery.init (tools_directory : String) : MCPFilesystemDiscovery :=
  ⟨tools_directory⟩

/-- Embeds `MCPFilesystemDiscovery.list_available_tools`: the body returns a
literal list of ten filenames and reads nothing else (in particular it never
reads `self.tools_dir` and touches no filesystem). -/
def MCPFilesystemDiscovery.list_available_tools (_d : MCPFilesystemDiscovery) : List String :=
  ["filesystem.py",
   "database.py",
   "api.py",
   "email.py",
   "slack.py",
   "github.py",
   "aws.py",
   "docker.py",
   "kubernetes.py",
   "analytics.py"]

/-- The mock module content returned by `read_tool_module` for
`"filesystem.py"`, embedded verbatim (newlines as escapes, literal braces as
hex escapes). -/
def filesystemModuleContent : String :=
  "\n\"\"\"Filesystem MCP Tools\"\"\"\n\nclass FileSystem:\n    \"\"\"Tools for filesystem operations.\"\"\"\n\n    def list_directory(self, path: str) -> list:\n        \"\"\"List files in directory.\"\"\"\n        import os\n        return [\n            \x7b\"name\": f, \"size\": os.path.getsize(os.path.join(path, f))\x7d\n            for f in os.listdir(path)\n        ]\n\n    def read_file(self, path: str) -> str:\n        \"\"\"Read file contents.\"\"\"\n        with open(path, \x27r\x27) as f:\n            return f.read()\n\n    def write_file(self, path: str, content: str) -> bool:\n        \"\"\"Write content to file.\"\"\"\n        with open(path, \x27w\x27) as f:\n            f.write(content)\n        return True\n"

/-- The mock module content returned by `read_tool_module` for
`"database.py"`, embedded verbatim. -/
def databaseModuleContent : String :=
  "\n\"\"\"Database MCP Tools\"\"\"\n\nclass Database:\n    \"\"\"Tools for database operations.\"\"\"\n\n    def query(self, sql: str) -> list:\n        \"\"\"Execute SQL query.\"\"\"\n        # Implementation would connect to actual DB\n        return []\n\n    def insert(self, table: str, data: dict) -> int:\n        \"\"\"Insert row into table.\"\"\"\n        return 1\n"

/-- Embeds `MCPFilesystemDiscovery.read_tool_module`: branch on the tool name,
returning the mock module content; the fallback returns a one-line module
stub interpolating the name.  The body holds no cache: every call executes
the branch (the mock stand-in for reading the file) anew. -/
def MCPFilesystemDiscovery.read_tool_module (_d : MCPFilesystemDiscovery)
    (tool_name : String) : String :=
  if tool_name = "filesystem.py" then filesystemModuleContent
  else if tool_name = "database.py" then databaseModuleContent
  else "# " ++ tool_name ++ " - Tool module"

/-- Trace of `k` successive `read_tool_module` calls for the same name,
together with the number of underlying reads performed: the source has no
memoization, so each call performs its read again (one underlying fetch per
call). -/
def MCPFilesystemDiscovery.resolveTrace (d : MCPFilesystemDiscovery)
    (tool_name : String) : Nat → List String × Nat
  | 0 => ([], 0)
  | Nat.succ k =>
    let prev := MCPFilesystemDiscovery.resolveTrace d tool_name k
    (prev.1 ++ [MCPFilesystemDiscovery.read_tool_module d tool_name], prev.2 + 1)

/-- State-passing form of `list_available_tools`: the method body contains no
assignment to `self` and reads no mutable global, so the instance comes back
unchanged. -/
def MCPFilesystemDiscovery.list_available_tools_step (d : MCPFilesystemDiscovery) :
    List String × MCPFilesystemDiscovery :=
  (MCPFilesystemDiscovery.list_available_tools d, d)

/- ===================== mcp_wrapper_example.py ===================== -/

/-- Parameter of a Python method signature: name, type annotation, whether it
lacks a default (required), and the default value text when present.
Used both for the signatures of the wrapper classes in the source and for
the spec-modelled descriptor store. -/
structure ParameterSpec where
  pname : String
  type_tag : String
  required : Bool
  defaultValue : Option String
deriving DecidableEq

/-- Method signatures of class `FileSystemTools` as written in the source:
`list_directory(self, path: str)`, `read_file(self, path: str, encoding: str = "utf-8")`,
`write_file(self, path: str, content: str)`, `search_files(self, pattern: str, path: str = ".")`. -/
def FileSystemTools.methods : List (String × List ParameterSpec) :=
  [("list_directory", [⟨"path", "str", true, Option.none⟩]),
   ("read_file", [⟨"path", "str", true, Option.none⟩, ⟨"encoding", "str", false, Option.some "utf-8"⟩]),
   ("write_file", [⟨"path", "str", true, Option.none⟩, ⟨"content", "str", true, Option.none⟩]),
   ("search_files", [⟨"pattern", "str", true, Option.none⟩, ⟨"path", "str", false, Option.some "."⟩])]

/-- The docstring of class `FileSystemTools` (its `__doc__`), embedded
verbatim. -/
def FileSystemTools.doc : String :=
  "\n    Thin wrapper for filesystem MCP tools.\n\n    The LLM can:\n    1. Read this file to discover available tools\n    2. Import: from mcp_tools import FileSystemTools\n    3. Use: fs = FileSystemTools(); files = fs.list_directory(\"/path\")\n\n    Notice: No heavy schemas loaded upfront - just Python function signatures!\n    "

/-- The docstring of class `DatabaseTools` (its `__doc__`). -/
def DatabaseTools.doc : String := "Thin wrapper for database MCP tools."

/-- The docstring of class `APITools` (its `__doc__`). -/
def APITools.doc : String := "Thin wrapper for external API MCP tools."

/-- Embeds the literal dictionary returned by the static method
`MCPToolRegistry.list_available_tools`, as an association list preserving the
source's insertion order: category name mapped to its list of method
signature strings. -/
def MCPToolRegistry.list_available_tools : List (String × List String) :=
  [("FileSystemTools",
    ["list_directory(path: str)",
     "read_file(path: str)",
     "write_file(path: str, content: str)",
     "search_files(pattern: str)"]),
   ("DatabaseTools",
    ["query(sql: str)",
     "insert(table: str, data: dict)",
     "get_schema(table: str)"]),
   ("APITools",
    ["fetch(url: str, params: dict)",
     "post(url: str, data: dict)"])]

/-- The `tools` dictionary built inside `MCPToolRegistry.get_tool_docs` on
every call: tool name mapped to the class docstring. -/
def MCPToolRegistry.toolsDict : List (String × String) :=
  [("FileSystemTools", FileSystemTools.doc),
   ("DatabaseTools", DatabaseTools.doc),
   ("APITools", APITools.doc)]

/-- Embeds the static method `MCPToolRegistry.get_tool_docs`: build the
`tools` dictionary and return `tools.get(tool_name, "Tool not found")`.
The body is a total function: it raises for no input. -/
def MCPToolRegistry.get_tool_docs (tool_name : String) : String :=
  (MCPToolRegistry.toolsDict.lookup tool_name).getD "Tool not found"

/-- Trace of `k` successive `get_tool_docs` calls for the same name together
with the number of dictionary lookups performed against the freshly rebuilt
`tools` mapping: the source caches nothing, so every call performs its own
lookup (one store query per call). -/
def MCPToolRegistry.docsTrace (tool_name : String) : Nat → List String × Nat
  | 0 => ([], 0)
  | Nat.succ k =>
    let prev := MCPToolRegistry.docsTrace tool_name k
    (prev.1 ++ [MCPToolRegistry.get_tool_docs tool_name], prev.2 + 1)

/-- State-passing form of the static method `MCPToolRegistry.list_available_tools`:
a static method has no instance state, embedded as a trivial unit state. -/
def MCPToolRegistry.list_available_tools_step (u : Unit) :
    List (String × List String) × Unit :=
  (MCPToolRegistry.list_available_tools, u)

/- ===================== outlook_mcp_thin_wrapper.py ===================== -/

/-- Embeds the literal list returned by the static method
`OutlookMCPRegistry.list_tools`: decorated description strings, not bare tool
names. -/
def OutlookMCPRegistry.list_tools : List String :=
  ["email.py - Email operations (list, search, send, delete)",
   "calendar.py - Calendar management (events, meetings)",
   "contacts.py - Contact management (search, get)"]

/-- The `info` dictionary built inside `OutlookMCPRegistry.get_tool_info`:
registered short tool names mapped to their brief documentation strings. -/
def OutlookMCPRegistry.infoTable : List (String × String) :=
  [("email", "Email: list, search, get, send, delete, mark_read"),
   ("calendar", "Calendar: list_events, create_event, delete_event"),
   ("contacts", "Contacts: search, get")]

/-- Embeds the static method `OutlookMCPRegistry.get_tool_info`: returns
`info.get(tool_name, "Tool not found")`. -/
def OutlookMCPRegistry.get_tool_info (tool_name : String) : String :=
  (OutlookMCPRegistry.infoTable.lookup tool_name).getD "Tool not found"

/- ===================== outlook_mcp_production_example.py ===================== -/

/-- Python-like values exchanged with the mock MCP clients: strings,
integers, booleans, None, lists and dictionaries. -/
inductive PyVal
  | str (s : String)
  | int (n : Int)
  | bool (b : Bool)
  | none
  | list (xs : List PyVal)
  | dict (kvs : List (String × PyVal))

/-- Rendering of `arguments.get("query")` inside the f-string
`f"Search: \x7barguments.get(\x27query\x27)\x7d"` of `MCPClient.call`, following
Python's `str`: a missing key renders as `None`, a string as itself, an
integer or boolean in decimal or title case.  The source's only call site
passes `query` as a string; container renderings are abbreviated and are
exercised by no theorem below. -/
def pyFStr : Option PyVal → String
  | Option.none => "None"
  | Option.some (PyVal.str s) => s
  | Option.some (PyVal.int n) => toString n
  | Option.some (PyVal.bool true) => "True"
  | Option.some (PyVal.bool false) => "False"
  | Option.some PyVal.none => "None"
  | Option.some (PyVal.list _) => "[...]"
  | Option.some (PyVal.dict _) => "\x7b...\x7d"

/-- Embeds `MCPClient.call(tool_name, **arguments)` from the production
example: branch on the tool name, returning the hard-coded mock data for
`outlook_list_emails` and `outlook_search_emails`, and falling through to
`return \x7b\x7d` (an empty dictionary) for every other name.  The body is a
total function: no branch raises. -/
def MCPClient.call (tool_name : String) (arguments : List (String × PyVal)) : PyVal :=
  if tool_name = "outlook_list_emails" then
    PyVal.list [PyVal.dict
      [("id", PyVal.str "msg_001"),
       ("subject", PyVal.str "Q4 Planning"),
       ("from", PyVal.str "manager@company.com"),
       ("date", PyVal.str "2025-11-08T10:00:00Z")]]
  else if tool_name = "outlook_search_emails" then
    PyVal.list [PyVal.dict
      [("id", PyVal.str "msg_002"),
       ("subject", PyVal.str ("Search: " ++ pyFStr (arguments.lookup "query")))]]
  else PyVal.dict []

/-- A transport call record: the tool name sent to the MCP client together
with the keyword arguments, used to count backend calls explicitly. -/
def TransportLog : Type := List (String × List (String × PyVal))

/-- Embeds `OutlookEmailWrapper.list_emails(folder="inbox", limit=50,
unread_only=False)`: each argument is optional at the call site and Python
substitutes the signature default when omitted; the body unconditionally
performs exactly one `self.client.call("outlook_list_emails", ...)`.
The second component is the log of transport calls made by the invocation. -/
def OutlookEmailWrapper.list_emails (folder : Option String) (limit : Option Int)
    (unread_only : Option Bool) : PyVal × TransportLog :=
  let f := folder.getD "inbox"
  let l := limit.getD 50
  let u := unread_only.getD false
  let args := [("folder", PyVal.str f), ("limit", PyVal.int l), ("unread_only", PyVal.bool u)]
  (MCPClient.call "outlook_list_emails" args, [("outlook_list_emails", args)])

/-- Python-level exceptions that the embedded call boundary can raise. -/
inductive PyError
  | typeError
deriving DecidableEq

/-- Embeds an invocation of `OutlookEmailWrapper.search_emails(self, query: str)`
with the argument possibly omitted at the call site: `query` has no default
in the signature, so omitting it makes Python raise `TypeError` before the
body runs (and therefore before any transport call); when present, the body
performs exactly one `self.client.call("outlook_search_emails", query=query)`. -/
def OutlookEmailWrapper.search_emails (query : Option String) :
    Except PyError (PyVal × TransportLog) :=
  match query with
  | Option.none => Except.error PyError.typeError
  | Option.some q =>
    let args := [("query", PyVal.str q)]
    Except.ok (MCPClient.call "outlook_search_emails" args, [("outlook_search_emails", args)])

/- ============== outlook_mcp_reference_implementation.py ============== -/

/-- Embeds `OutlookMCPClient.call_tool(tool_name, arguments)` from the
reference implementation: branch on the tool name, returning the hard-coded
mock payloads for `outlook_list_emails`, `outlook_list_events` and
`outlook_create_event` (the last echoes `arguments.get(...)`, where a missing
key yields `None`), and falling through to `return \x7b\x7d` for every other
name.  The body is a total function: no branch raises. -/
def OutlookMCPClient.call_tool (tool_name : String)
    (arguments : List (String × PyVal)) : PyVal :=
  if tool_name = "outlook_list_emails" then
    PyVal.dict [("emails", PyVal.list
      [PyVal.dict
        [("id", PyVal.str "msg_001"),
         ("subject", PyVal.str "Q4 Planning Meeting"),
         ("from", PyVal.str "manager@company.com"),
         ("date", PyVal.str "2025-11-08T10:00:00Z"),
         ("isRead", PyVal.bool false),
         ("bodyPreview", PyVal.str "Let\x27s schedule our Q4 planning session...")],
       PyVal.dict
        [("id", PyVal.str "msg_002"),
         ("subject", PyVal.str "Budget Approval Request"),
         ("from", PyVal.str "finance@company.com"),
         ("date", PyVal.str "2025-11-08T09:30:00Z"),
         ("isRead", PyVal.bool false),
         ("bodyPreview", PyVal.str "Please review the Q4 budget...")],
       PyVal.dict
        [("id", PyVal.str "msg_003"),
         ("subject", PyVal.str "Team Update"),
         ("from", PyVal.str "colleague@company.com"),
         ("date", PyVal.str "2025-11-08T09:00:00Z"),
         ("isRead", PyVal.bool true),
         ("bodyPreview", PyVal.str "Weekly team update...")]])]
  else if tool_name = "outlook_list_events" then
    PyVal.dict [("events", PyVal.list
      [PyVal.dict
        [("id", PyVal.str "evt_001"),
         ("subject", PyVal.str "Daily Standup"),
         ("start", PyVal.str "2025-11-11T09:00:00Z"),
         ("end", PyVal.str "2025-11-11T09:30:00Z"),
         ("location", PyVal.str "Conference Room A")],
       PyVal.dict
        [("id", PyVal.str "evt_002"),
         ("subject", PyVal.str "Client Meeting"),
         ("start", PyVal.str "2025-11-11T14:00:00Z"),
         ("end", PyVal.str "2025-11-11T15:00:00Z"),
         ("location", PyVal.str "Zoom")]])]
  else if tool_name = "outlook_create_event" then
    PyVal.dict
      [("id", PyVal.str "evt_new_001"),
       ("subject", (arguments.lookup "subject").getD PyVal.none),
       ("start", (arguments.lookup "start").getD PyVal.none),
       ("end", (arguments.lookup "end").getD PyVal.none),
       ("status", PyVal.str "confirmed")]
  else PyVal.dict []

/- ============== recognizers following the spec's words ============== -/

/-- Follows the spec's words, for comparison with the source's return values:
an `InvocationResult` with `status: NotFound` is a value carrying a
`"status"` field equal to `"NotFound"`. -/
def specIsNotFoundResult (v : PyVal) : Bool :=
  match v with
  | PyVal.dict kvs =>
    match kvs.lookup "status" with
    | Option.some (PyVal.str s) => s == "NotFound"
    | _ => false
  | _ => false

/-- Follows the spec's words, for comparison with the source's behaviour: an
invocation outcome counts as a returned `ValidationError` result when it is a
normally returned value carrying a `"status"` field equal to
`"ValidationError"`; a raised exception is not a returned result. -/
def specIsValidationErrorResult : Except PyError (PyVal × TransportLog) → Bool
  | Except.ok (v, _) =>
    match v with
    | PyVal.dict kvs =>
      match kvs.lookup "status" with
      | Option.some (PyVal.str s) => s == "ValidationError"
      | _ => false
    | _ => false
  | Except.error _ => false

/- ============== spec-modelled Tool Descriptor Store (for C7) ============== -/

/-- Modelled from the spec: a `ToolDescriptor` per section 3 of the spec
(name, summary, ordered parameter sequence, category).  No registration
machinery exists anywhere under src — `MCPToolRegistry` offers only static
listing and documentation lookups — so the descriptor record is taken from
the spec's data model. -/
structure ToolDescriptor where
  name : String
  summary : String
  parameters : List ParameterSpec
  category : String

/-- Modelled from the spec: the Tool Descriptor Store of section 4.1, holding
descriptors keyed by name.  Absent from src; modelled as an association list
in insertion order. -/
structure ToolDescriptorStore where
  entries : List (String × ToolDescriptor)

/-- Outcome of a registration attempt per the spec's error taxonomy. -/
inductive RegOutcome
  | ok
  | duplicateNameError
deriving DecidableEq

/-- Modelled from the spec: `register(descriptor)` of section 4.1 — fails
with `DuplicateNameError` if `name` already present, otherwise appends the
descriptor; state passing makes the resulting store explicit, so a failed
call returns the store it was given. -/
def ToolDescriptorStore.register (s : ToolDescriptorStore) (d : ToolDescriptor) :
    RegOutcome × ToolDescriptorStore :=
  if s.entries.any (fun e => e.1 == d.name) then
    (RegOutcome.duplicateNameError, s)
  else
    (RegOutcome.ok, ⟨s.entries ++ [(d.name, d)]⟩)

/- ============== concrete store fixtures (used by the C7 witness) ============== -/

/-- Concrete descriptor for the spec's `"echo"` scenario tool. -/
def echoDescriptor : ToolDescriptor :=
  ⟨"echo", "Echoes its input", [⟨"text", "string", true, Option.none⟩], "demo"⟩

/-- A second descriptor carrying the already-registered name `"echo"`. -/
def echoDescriptorSecond : ToolDescriptor :=
  ⟨"echo", "A second descriptor under the same name", [], "demo"⟩

/-- A store already holding the first `"echo"` registration. -/
def echoStore : ToolDescriptorStore := ⟨[("echo", echoDescriptor)]⟩

/- ===================== theorems ===================== -/

/-- Claim C1, counterexample: the discovery listing does expose parameter
schemas.  The element `"list_directory(path: str)"` of the `FileSystemTools`
entry of `MCPToolRegistry.list_available_tools` contains, rendered as
`name ++ ": " ++ type_tag`, the parameter spec of the tool's
`list_directory` method. -/
theorem listing_contains_parameter_signature_counterexample :
    "list_directory(path: str)" ∈ (MCPToolRegistry.list_available_tools.lookup "FileSystemTools").getD []
    ∧ (⟨"path", "str", true, Option.none⟩ : ParameterSpec) ∈ (FileSystemTools.methods.lookup "list_directory").getD []
    ∧ hasSubstr "list_directory(path: str)" ("path" ++ ": " ++ "str") = true := by
  refine ⟨?_, ?_, ?_⟩ <;> decide

/-- Claim C1 (amended): no element of either discovery listing contains any
tool's summary documentation — the class docstrings served by
`MCPToolRegistry.get_tool_docs` and the info strings served by
`OutlookMCPRegistry.get_tool_info` occur in no listing element — although the
`MCPToolRegistry` listing does expose method parameter signatures. -/
theorem listing_elements_never_contain_tool_docs :
    (MCPToolRegistry.list_available_tools.all fun cat =>
      cat.2.all fun el => MCPToolRegistry.toolsDict.all fun dcs => !(hasSubstr el dcs.2)) = true
    ∧ (OutlookMCPRegistry.list_tools.all fun el =>
      OutlookMCPRegistry.infoTable.all fun ifo => !(hasSubstr el ifo.2)) = true := by
  exact ⟨by decide, by decide⟩

/-- Claim C2, counterexample: resolving the same name twice performs two
underlying store queries, not one — neither `get_tool_docs` nor
`read_tool_module` caches anything. -/
theorem resolve_twice_queries_store_twice_counterexample :
    (MCPToolRegistry.docsTrace "FileSystemTools" 2).2 ≠ 1
    ∧ (MCPFilesystemDiscovery.resolveTrace (MCPFilesystemDiscovery.init "/mcp_tools") "filesystem.py" 2).2 ≠ 1 := by
  exact ⟨by decide, by decide⟩

/-- Claim C2 (amended): resolving the same name repeatedly is idempotent —
all k calls return the same value, since `read_tool_module` and
`get_tool_docs` are pure — but the source holds no cache, so each call
performs its own underlying query: the store call count after k resolves of
the same name is k, not 1. -/
theorem resolve_idempotent_one_query_per_call (d : MCPFilesystemDiscovery) (n : String) (k : Nat) :
    (MCPFilesystemDiscovery.resolveTrace d n k).1 = List.replicate k (MCPFilesystemDiscovery.read_tool_module d n)
    ∧ (MCPFilesystemDiscovery.resolveTrace d n k).2 = k
    ∧ (MCPToolRegistry.docsTrace n k).1 = List.replicate k (MCPToolRegistry.get_tool_docs n)
    ∧ (MCPToolRegistry.docsTrace n k).2 = k := by
  induction k with
  | zero => exact ⟨rfl, rfl, rfl, rfl⟩
  | succ k ih =>
    refine ⟨?_, ?_, ?_, ?_⟩
    · simp [MCPFilesystemDiscovery.resolveTrace, ih.1, List.replicate_succ']
    · simp [MCPFilesystemDiscovery.resolveTrace, ih.2.1]
    · simp [MCPToolRegistry.docsTrace, ih.2.2.1, List.replicate_succ']
    · simp [MCPToolRegistry.docsTrace, ih.2.2.2]

/-- Claim C3, counterexample: calling an unknown tool name on either client
returns the empty dictionary, which carries no `NotFound` status field — the
code returns a bare `\x7b\x7d` sentinel, not a NotFound-status result. -/
theorem unknown_tool_call_returns_empty_dict_counterexample :
    MCPClient.call "outlook_delete_email" [] = PyVal.dict []
    ∧ specIsNotFoundResult (MCPClient.call "outlook_delete_email" []) = false
    ∧ OutlookMCPClient.call_tool "outlook_delete_email" [] = PyVal.dict []
    ∧ specIsNotFoundResult (OutlookMCPClient.call_tool "outlook_delete_email" []) = false := by
  refine ⟨rfl, rfl, rfl, rfl⟩

/-- Claim C3 (amended): invoking an unknown tool name never raises past the
invocation boundary — both mock clients are total and fall through to
returning the empty dictionary for every unmatched name — but the value
returned is `\x7b\x7d`, not a NotFound-status result. -/
theorem unknown_tool_call_never_raises_returns_empty (name : String) (args : List (String × PyVal))
    (h1 : name ≠ "outlook_list_emails") (h2 : name ≠ "outlook_search_emails")
    (h3 : name ≠ "outlook_list_events") (h4 : name ≠ "outlook_create_event") :
    MCPClient.call name args = PyVal.dict []
    ∧ OutlookMCPClient.call_tool name args = PyVal.dict [] := by
  constructor
  · simp [MCPClient.call, h1, h2]
  · simp [OutlookMCPClient.call_tool, h1, h3, h4]

/-- Witness for the amended claim C3 at the concrete name `"nonexistent"`. -/
theorem unknown_tool_call_never_raises_returns_empty_witness :
    ("nonexistent" ≠ "outlook_list_emails" ∧ "nonexistent" ≠ "outlook_search_emails"
      ∧ "nonexistent" ≠ "outlook_list_events" ∧ "nonexistent" ≠ "outlook_create_event")
    ∧ (MCPClient.call "nonexistent" [] = PyVal.dict []
      ∧ OutlookMCPClient.call_tool "nonexistent" [] = PyVal.dict []) :=
  ⟨⟨by decide, by decide, by decide, by decide⟩,
   unknown_tool_call_never_raises_returns_empty "nonexistent" [] (by decide) (by decide) (by decide) (by decide)⟩

/-- Claim C4, counterexample: `"email"` is a registered tool name (a key of
the `get_tool_info` table) yet is no element of `list_tools`, and resolving
the listed entry `"email.py - Email operations (list, search, send, delete)"`
returns the `"Tool not found"` sentinel rather than a descriptor named after
the request. -/
theorem listed_entry_not_resolvable_counterexample :
    "email" ∈ OutlookMCPRegistry.infoTable.map Prod.fst
    ∧ "email" ∉ OutlookMCPRegistry.list_tools
    ∧ "email.py - Email operations (list, search, send, delete)" ∈ OutlookMCPRegistry.list_tools
    ∧ OutlookMCPRegistry.get_tool_info "email.py - Email operations (list, search, send, delete)" = "Tool not found" := by
  refine ⟨?_, ?_, ?_, ?_⟩ <;> decide

/-- Claim C4 (amended): both discovery listings are duplicate-free, every
registered short name (`email`, `calendar`, `contacts`) is the stem of
exactly one `list_tools` entry of the form `name ++ ".py - ..."`, and
resolving a registered short name — not a listed entry — succeeds (it never
yields the `"Tool not found"` sentinel). -/
theorem listings_nodup_and_registered_names_resolve :
    (MCPFilesystemDiscovery.list_available_tools (MCPFilesystemDiscovery.init "/mcp_tools")).Nodup
    ∧ OutlookMCPRegistry.list_tools.Nodup
    ∧ ((OutlookMCPRegistry.infoTable.map Prod.fst).all fun n =>
        OutlookMCPRegistry.list_tools.countP (fun el => listPrefixOf (n ++ ".py - ").data el.data) == 1) = true
    ∧ ((OutlookMCPRegistry.infoTable.map Prod.fst).all fun n =>
        OutlookMCPRegistry.get_tool_info n != "Tool not found") = true := by
  refine ⟨?_, ?_, ?_, ?_⟩ <;> decide

/-- Claim C5: repeated discovery listing calls on the same registry state are
deterministic — a second call returns the same sequence element for element,
and the call leaves the state unchanged (the instance for
`MCPFilesystemDiscovery`, the trivial static-method state for
`MCPToolRegistry`). -/
theorem listing_repeated_calls_deterministic (d : MCPFilesystemDiscovery) (u : Unit) :
    ((MCPFilesystemDiscovery.list_available_tools_step d).1
        = (MCPFilesystemDiscovery.list_available_tools_step (MCPFilesystemDiscovery.list_available_tools_step d).2).1
      ∧ (MCPFilesystemDiscovery.list_available_tools_step d).2 = d)
    ∧ (MCPToolRegistry.list_available_tools_step u).1
        = (MCPToolRegistry.list_available_tools_step (MCPToolRegistry.list_available_tools_step u).2).1 :=
  ⟨⟨rfl, rfl⟩, rfl⟩

/-- Claim C6, counterexample: omitting the required `query` parameter of
`OutlookEmailWrapper.search_emails` raises a `TypeError` at the Python call
boundary — an exception, not a returned `ValidationError` result naming the
parameter. -/
theorem missing_required_query_raises_counterexample :
    OutlookEmailWrapper.search_emails Option.none = Except.error PyError.typeError
    ∧ specIsValidationErrorResult (OutlookEmailWrapper.search_emails Option.none) = false :=
  ⟨rfl, rfl⟩

/-- Claim C6 (amended): the wrappers perform no argument validation and never
produce a `ValidationError` value.  Every parameter of `list_emails` has a
default, so any invocation — arguments omitted or not — substitutes the
defaults and calls the Transport exactly once; the only required parameter in
the class is `search_emails`'s `query`, whose omission raises `TypeError`
before the body runs, so the Transport is not called there either. -/
theorem no_validation_defaults_filled_transport_called (folder : Option String)
    (limit : Option Int) (unread_only : Option Bool) :
    (OutlookEmailWrapper.list_emails folder limit unread_only).2.length = 1
    ∧ (OutlookEmailWrapper.list_emails Option.none Option.none Option.none).2
        = [("outlook_list_emails",
            [("folder", PyVal.str "inbox"), ("limit", PyVal.int 50), ("unread_only", PyVal.bool false)])]
    ∧ OutlookEmailWrapper.search_emails Option.none = Except.error PyError.typeError :=
  ⟨rfl, rfl, rfl⟩

/-- Claim C7 (spec-modelled): registering a descriptor whose name is already
present fails with `DuplicateNameError` and returns the store unchanged, so
the first registration under that name remains intact. -/
theorem register_duplicate_fails_store_unchanged (s : ToolDescriptorStore) (d : ToolDescriptor)
    (h : s.entries.any (fun e => e.1 == d.name) = true) :
    ToolDescriptorStore.register s d = (RegOutcome.duplicateNameError, s) := by
  simp [ToolDescriptorStore.register, h]

/-- Witness for claim C7 at a concrete store already holding `"echo"`. -/
theorem register_duplicate_fails_store_unchanged_witness :
    (echoStore.entries.any (fun e => e.1 == echoDescriptorSecond.name) = true)
    ∧ ToolDescriptorStore.register echoStore echoDescriptorSecond
        = (RegOutcome.duplicateNameError, echoStore) :=
  ⟨by decide, register_duplicate_fails_store_unchanged echoStore echoDescriptorSecond (by decide)⟩

/-- Claim C9: the discovery listing is independent of the configured tools
directory — two instances built with different `tools_directory` arguments
return identical lists, since `list_available_tools` never reads
`self.tools_dir` and touches no filesystem. -/
theorem listing_independent_of_tools_directory (t1 t2 : String) (h : t1 ≠ t2) :
    MCPFilesystemDiscovery.list_available_tools (MCPFilesystemDiscovery.init t1)
      = MCPFilesystemDiscovery.list_available_tools (MCPFilesystemDiscovery.init t2) := rfl

/-- Witness for claim C9 at two concrete distinct directories. -/
theorem listing_independent_of_tools_directory_witness :
    "/mcp_tools" ≠ "/opt/other_tools"
    ∧ MCPFilesystemDiscovery.list_available_tools (MCPFilesystemDiscovery.init "/mcp_tools")
        = MCPFilesystemDiscovery.list_available_tools (MCPFilesystemDiscovery.init "/opt/other_tools") :=
  ⟨by decide, listing_independent_of_tools_directory "/mcp_tools" "/opt/other_tools" (by decide)⟩

/-- Claim C10: for every tool name outside the three registered keys,
`MCPToolRegistry.get_tool_docs` returns exactly the sentinel string
`"Tool not found"`; the embedded body is a total function, so no input
raises. -/
theorem get_tool_docs_unknown_returns_sentinel (n : String)
    (h1 : n ≠ "FileSystemTools") (h2 : n ≠ "DatabaseTools") (h3 : n ≠ "APITools") :
    MCPToolRegistry.get_tool_docs n = "Tool not found" := by
  have e1 : (n == "FileSystemTools") = false := beq_eq_false_iff_ne.mpr h1
  have e2 : (n == "DatabaseTools") = false := beq_eq_false_iff_ne.mpr h2
  have e3 : (n == "APITools") = false := beq_eq_false_iff_ne.mpr h3
  simp [MCPToolRegistry.get_tool_docs, MCPToolRegistry.toolsDict, List.lookup, e1, e2, e3]

/-- Witness for claim C10 at the concrete unknown name `"SlackTools"`. -/
theorem get_tool_docs_unknown_returns_sentinel_witness :
    ("SlackTools" ≠ "FileSystemTools" ∧ "SlackTools" ≠ "DatabaseTools" ∧ "SlackTools" ≠ "APITools")
    ∧ MCPToolRegistry.get_tool_docs "SlackTools" = "Tool not found" :=
  ⟨⟨by decide, by decide, by decide⟩,
   get_tool_docs_unknown_returns_sentinel "SlackTools" (by decide) (by decide) (by decide)⟩
